import Mathlib

/-!
# Verification of the `resolvable` package (caching / retry / graceful-fallback layer)

Shallow embedding of the decorator pipeline implemented in `resolvable.go` and
`backoff.go`.  The repository carries two revisions of `resolvable.go`; the
embedding follows the later revision (the `cache[T]` implementation together
with `Retry`/`Once`/`Graceful`/`New` as defined there), which is the one the
package's test file exercises.

Modelling choices:
* Go `error` values are `Option E` (`none` = nil).
* Timestamps and durations are `Int`; `time.Time.Before` is strict `<` and
  `time.Time.Add` is `+`.  The injected clock (`WithNow` / `CacheOpts.Now`) is
  modelled by passing the timestamp returned by `now()` during a `Resolve`
  call explicitly to that call (the clock is constant within a single call,
  as in the package's tests, which only advance the clock between calls).
* The wrapped resolver is modelled as a function from its invocation count to
  the `(value, error)` pair that invocation produces; this captures the
  stateful, counter-style resolvers used throughout the package's tests.  A
  ghost field `calls` in the cache state records how many times the wrapped
  resolver has been invoked.
* The backoff policy (`BackOff` interface of `backoff.go`) is a pair of pure
  transition functions on an explicit policy-state type `B`.
-/

namespace Resolvable

variable {T E B : Type}

/-- The `BackOff` interface of `backoff.go`: `Reset` returns the policy to its
initial state, `NextBackOff` returns the duration to wait before retrying
together with the updated policy state. -/
structure BackoffPolicy (B : Type) where
  reset : B → B
  next : B → B × Int

/-- `BackOffStop` (`backoff.go`): the duration value documented to indicate
that no more retries should be made. -/
def BackOffStop : Int := -1

/-- `zeroBackoff` (`backoff.go`): the stateless policy used when
`RetryOpts.Backoff` is nil (`cache.backoff()`); `Reset` is a no-op and
`NextBackOff` always returns `0`. -/
def zeroBackoff : BackoffPolicy Unit :=
  { reset := fun s => s
    next := fun s => (s, 0) }

/-- A backoff policy that is exhausted: `NextBackOff` always signals stop. -/
def stopBackoff : BackoffPolicy Unit :=
  { reset := fun s => s
    next := fun s => (s, BackOffStop) }

/-- `CacheOpts` (`resolvable.go`): expiry duration and retry-on-error flag.
`Now` is modelled by the explicit per-call timestamp, and `RetryOpts.Backoff`
by the `BackoffPolicy` argument of `cacheResolve` (with `zeroBackoff` standing
for a nil backoff, exactly as in `cache.backoff()`). -/
structure CacheOpts where
  Expiry : Int
  Retry : Bool

/-- The `CacheOpts` value built by `Once` (`Cache(resolvable, CacheOpts{})`):
zero expiry, no retry-on-error. -/
def onceCacheOpts : CacheOpts := { Expiry := 0, Retry := false }

/-- The `CacheOpts` value built by `Retry`
(`Cache(resolvable, CacheOpts{Retry: true, ...})`): zero expiry, retry-on-error. -/
def retryCacheOpts : CacheOpts := { Expiry := 0, Retry := true }

/-- The mutable state of a `cache[T]` instance (`resolvable.go`): the stored
value pointer (`none` = nil = never resolved), the stored error, the
`nextResolve` timestamp, the backoff policy's state, and the ghost counter
`calls` of invocations of the wrapped resolver. -/
structure CacheState (T E B : Type) where
  value : Option T
  err : Option E
  nextResolve : Int
  backoff : B
  calls : Nat

/-- The zero value of a freshly constructed `cache[T]` (`Cache` constructor):
nil value pointer, nil error, zero `nextResolve`, backoff in state `b`. -/
def initCache (b : B) : CacheState T E B :=
  { value := none, err := none, nextResolve := 0, backoff := b, calls := 0 }

/-- The non-cached path of `cache[T].Resolve`: invoke the wrapped resolver,
store its value and error, reset the backoff policy on success, otherwise (when
`Retry` is set) ask it for the next retry delay, and set
`nextResolve = now + next` where `next` defaults to `Expiry`. -/
def cacheMiss (opts : CacheOpts) (bo : BackoffPolicy B)
    (inner : Nat → T × Option E) (t : Int) (s : CacheState T E B) :
    (T × Option E) × CacheState T E B :=
  let r := inner s.calls
  let s1 : CacheState T E B :=
    { s with value := some r.1, err := r.2, calls := s.calls + 1 }
  if r.2.isNone then
    (r, { s1 with backoff := bo.reset s1.backoff, nextResolve := t + opts.Expiry })
  else if opts.Retry then
    let nb := bo.next s1.backoff
    (r, { s1 with backoff := nb.1, nextResolve := t + nb.2 })
  else
    (r, { s1 with nextResolve := t + opts.Expiry })

/-- `cache[T].Resolve` (`resolvable.go`): if a value is present and `now` is
strictly before `nextResolve`, return the stored pair untouched; otherwise, if
no value has ever been stored, first reset the backoff policy, and in either
case fall through to `cacheMiss`. -/
def cacheResolve (opts : CacheOpts) (bo : BackoffPolicy B)
    (inner : Nat → T × Option E) (t : Int) (s : CacheState T E B) :
    (T × Option E) × CacheState T E B :=
  match s.value with
  | some v0 =>
    if t < s.nextResolve then ((v0, s.err), s)
    else cacheMiss opts bo inner t s
  | none => cacheMiss opts bo inner t { s with backoff := bo.reset s.backoff }

/-- Run a sequence of `Resolve` calls at the given timestamps, collecting the
outputs and the final cache state. -/
def cacheRun (opts : CacheOpts) (bo : BackoffPolicy B)
    (inner : Nat → T × Option E) :
    List Int → CacheState T E B → List (T × Option E) × CacheState T E B
  | [], s => ([], s)
  | t :: ts, s =>
    let r := cacheResolve opts bo inner t s
    let rest := cacheRun opts bo inner ts r.2
    (r.1 :: rest.1, rest.2)

/-- One call of the closure returned by `Graceful` (`resolvable.go`), given the
fresh inner result `r` and the current `lastGood` pointer: if the inner call
failed and `lastGood` is non-nil, return `(lastGood, err)` and leave `lastGood`
alone; otherwise return the fresh pair and persist its value in `lastGood`. -/
def gracefulResolve (r : T × Option E) (lastGood : Option T) :
    (T × Option E) × Option T :=
  match r.2, lastGood with
  | some e, some g => ((g, some e), some g)
  | _, _ => (r, some r.1)

/-- The `lastGood` pointer of a `Graceful` wrapper after `k` calls, where the
inner resolver returns `inner j` on its `j`-th invocation (`Graceful` invokes
its inner resolver on every call, so invocation count equals call count). -/
def gracefulIter (inner : Nat → T × Option E) : Nat → Option T
  | 0 => none
  | k + 1 => (gracefulResolve (inner k) (gracefulIter inner k)).2

/-- The output of the `k`-th call (0-indexed) of a `Graceful` wrapper. -/
def gracefulOut (inner : Nat → T × Option E) (k : Nat) : T × Option E :=
  (gracefulResolve (inner k) (gracefulIter inner k)).1

/-- Specification helper: the value of the most recent successful inner call
strictly before call `k` (`none` if no call before `k` succeeded). -/
def latestSuccess (inner : Nat → T × Option E) : Nat → Option T
  | 0 => none
  | k + 1 =>
    if (inner k).2.isNone then some (inner k).1 else latestSuccess inner k

/-- Backoff operations, for observing how the cache drives its policy. -/
inductive BOp where
  | reset : BOp
  | nextBackOff : BOp
deriving DecidableEq

/-- An instrumented backoff policy whose state is the chronological trace of
the operations invoked on it; `NextBackOff` returns `d n` on its call after `n`
recorded operations, for an arbitrary delay schedule `d`. -/
def traceBackoff (d : Nat → Int) : BackoffPolicy (List BOp) :=
  { reset := fun s => s ++ [BOp.reset]
    next := fun s => (s ++ [BOp.nextBackOff], d s.length) }

/-- The builder's option record (`options` in `resolvable.go`).  The `now`
function is modelled by explicit per-call timestamps and `retryOpts` by the
backoff-policy parameter of the cache semantics, so neither is a field here;
no claim under verification constrains them through the builder. -/
structure Options where
  once : Bool
  retry : Bool
  graceful : Bool
  expiry : Int
  safe : Bool

/-- The defaults `New` starts from (`options{safe: true}`). -/
def defaultOptions : Options :=
  { once := false, retry := false, graceful := false, expiry := 0, safe := true }

/-- `WithGraceful` applied to an option record. -/
def withGracefulOpt (o : Options) : Options := { o with graceful := true }

/-- The decorator pipeline assembled by `New`, as a syntax tree: each wrapper
call (`Graceful`, `Cache`, `Retry`, `Once`, `Safe`) contributes one node. -/
inductive Pipeline where
  | base : Pipeline
  | graceful : Pipeline → Pipeline
  | cacheP : Int → Bool → Pipeline → Pipeline
  | safe : Pipeline → Pipeline
deriving DecidableEq

/-- `Retry` (`resolvable.go`): `Cache` with `Retry: true` and zero expiry. -/
def retryPipe (p : Pipeline) : Pipeline := Pipeline.cacheP 0 true p

/-- `Once` (`resolvable.go`): `Cache` with the zero `CacheOpts`. -/
def oncePipe (p : Pipeline) : Pipeline := Pipeline.cacheP 0 false p

/-- `New` (`resolvable.go`) as a pipeline: wrap with `Graceful` if requested,
then exactly one of `Cache`/`Retry`/`Once` by the source's `if`/`else if`
chain, then `Safe` last. -/
def NewPipe (o : Options) : Pipeline :=
  let v := Pipeline.base
  let v1 := if o.graceful then Pipeline.graceful v else v
  let v2 :=
    if 0 < o.expiry then Pipeline.cacheP o.expiry o.retry v1
    else if o.retry then retryPipe v1
    else if o.once then oncePipe v1
    else v1
  if o.safe then Pipeline.safe v2 else v2

/-- Written from the spec's words (section 4.5 / claim C5), for comparison
with `NewPipe`: base resolver; Graceful iff `graceful`; then, mutually
exclusive and in priority order, Expiring Cache with the given `ttl` and
`retry_on_error = retry` if `ttl > 0`, else retry-forever (`ttl = 0`,
`retry_on_error = true`) if `retry`, else resolve-once (`ttl = 0`,
`retry_on_error = false`) if `once`; then Mutex Guard outermost iff
`concurrency_safe`. -/
def specPipeline (o : Options) : Pipeline :=
  let v := Pipeline.base
  let v1 := if o.graceful then Pipeline.graceful v else v
  let v2 :=
    if 0 < o.expiry then Pipeline.cacheP o.expiry o.retry v1
    else if o.retry then Pipeline.cacheP 0 true v1
    else if o.once then Pipeline.cacheP 0 false v1
    else v1
  if o.safe then Pipeline.safe v2 else v2

/-- The mutable state carried by each pipeline layer: the base holds the ghost
invocation counter of the user resolver, `Graceful` holds its `lastGood`
pointer, a cache layer holds `(value, err, nextResolve)` (the builder threads
no `RetryOpts` into the cache layers it creates, so their backoff policy is the
stateless `zeroBackoff` and needs no state field), and `Safe` holds nothing of
its own. -/
@[reducible] def Pipeline.PState (T E : Type) : Pipeline → Type
  | .base => Nat
  | .graceful p => Option T × p.PState T E
  | .cacheP _ _ p => Option T × Option E × Int × p.PState T E
  | .safe p => p.PState T E

/-- The initial (zero-value) state of a pipeline. -/
def Pipeline.initState (T E : Type) : (p : Pipeline) → p.PState T E
  | .base => 0
  | .graceful p => (none, p.initState T E)
  | .cacheP _ _ p => (none, none, 0, p.initState T E)
  | .safe p => p.initState T E

/-- One `Resolve` call through a pipeline at time `t`.  `Safe` (the mutex) is
semantically transparent in this single-caller model; a cache layer follows
`cache[T].Resolve` with the `zeroBackoff` policy, whose `Reset` is a no-op and
whose `NextBackOff` is `0`; `Graceful` follows `gracefulResolve`; the base
layer invokes the user resolver and bumps the ghost counter. -/
def pipeStep (inner : Nat → T × Option E) (t : Int) :
    (p : Pipeline) → p.PState T E → (T × Option E) × p.PState T E
  | .base => fun k => (inner k, k + 1)
  | .graceful p => fun s =>
    let r := pipeStep inner t p s.2
    let g := gracefulResolve r.1 s.1
    (g.1, (g.2, r.2))
  | .cacheP ex rt p => fun s =>
    match s.1 with
    | some v0 =>
      if t < s.2.2.1 then ((v0, s.2.1), s)
      else
        let r := pipeStep inner t p s.2.2.2
        let nx := if r.1.2.isNone then ex else if rt then 0 else ex
        (r.1, (some r.1.1, r.1.2, t + nx, r.2))
    | none =>
      let r := pipeStep inner t p s.2.2.2
      let nx := if r.1.2.isNone then ex else if rt then 0 else ex
      (r.1, (some r.1.1, r.1.2, t + nx, r.2))
  | .safe p => fun s => pipeStep inner t p s

/-- Run a sequence of calls through a pipeline. -/
def pipeRun (inner : Nat → T × Option E) (p : Pipeline) :
    List Int → p.PState T E → List (T × Option E) × p.PState T E
  | [], s => ([], s)
  | t :: ts, s =>
    let r := pipeStep inner t p s
    let rest := pipeRun inner p ts r.2
    (r.1 :: rest.1, rest.2)

/-- Ghost observation: the number of invocations of the base resolver recorded
in a pipeline state. -/
def Pipeline.baseCalls (T E : Type) : (p : Pipeline) → p.PState T E → Nat
  | .base => fun k => k
  | .graceful p => fun s => p.baseCalls T E s.2
  | .cacheP _ _ p => fun s => p.baseCalls T E s.2.2.2
  | .safe p => fun s => p.baseCalls T E s

/-- Whether a pipeline contains no cache layer. -/
def Pipeline.cacheFree : Pipeline → Bool
  | .base => true
  | .graceful p => p.cacheFree
  | .cacheP _ _ _ => false
  | .safe p => p.cacheFree

/-- Test fixture: a resolver that always fails, returning its invocation count. -/
def failInner : Nat → Nat × Option Unit := fun k => (k, some ())

/-- Test fixture: a resolver that fails on its first invocation and succeeds
afterwards, returning its invocation count. -/
def failOnceInner : Nat → Nat × Option Unit :=
  fun k => (k, if k = 0 then some () else none)

/-- Test fixture: a resolver that always succeeds, returning its invocation
count. -/
def countInner : Nat → Nat × Option Unit := fun k => (k, none)

/-- Test fixture: a positive-TTL, no-retry cache configuration. -/
def ttlOpts : CacheOpts := { Expiry := 2, Retry := false }

/-- The cache state after one `Resolve` call at time `0` on a fresh
`ttlOpts` cache over `countInner`. -/
def ttlS1 : CacheState Nat Unit Unit :=
  (cacheResolve ttlOpts zeroBackoff countInner 0 (initCache ())).2

/-- Test fixture: a cache state holding a live entry (`value` present,
`nextResolve` in the future of the calls exercised against it). -/
def hitState : CacheState Nat Unit Unit :=
  { value := some 7, err := none, nextResolve := 5, backoff := (), calls := 1 }

/-- Test fixture: a resolver that always fails, with pairwise distinct values
`10, 20, 30, ...`. -/
def failGrow : Nat → Nat × Option Unit := fun k => (10 * (k + 1), some ())

/-- Test fixture: a resolver that succeeds on its first invocation and fails
afterwards, returning `k + 5` on invocation `k`. -/
def succThenFail : Nat → Nat × Option Unit :=
  fun k => (k + 5, if k = 0 then none else some ())

lemma cache_hit_eq (opts : CacheOpts) (bo : BackoffPolicy B)
    (inner : Nat → T × Option E) (t : Int) (s : CacheState T E B) (v : T)
    (hv : s.value = some v) (ht : t < s.nextResolve) :
    cacheResolve opts bo inner t s = ((v, s.err), s) := by
  simp [cacheResolve, hv, ht]

lemma cacheMiss_spec (opts : CacheOpts) (bo : BackoffPolicy B)
    (inner : Nat → T × Option E) (t : Int) (s : CacheState T E B)
    (hR : opts.Retry = false) :
    (cacheMiss opts bo inner t s).1 = inner s.calls
      ∧ (cacheMiss opts bo inner t s).2.value = some (inner s.calls).1
      ∧ (cacheMiss opts bo inner t s).2.err = (inner s.calls).2
      ∧ (cacheMiss opts bo inner t s).2.calls = s.calls + 1
      ∧ (cacheMiss opts bo inner t s).2.nextResolve = t + opts.Expiry := by
  rcases he : (inner s.calls).2 with _ | e <;>
    simp [cacheMiss, he, hR]

lemma cacheMiss_calls (opts : CacheOpts) (bo : BackoffPolicy B)
    (inner : Nat → T × Option E) (t : Int) (s : CacheState T E B) :
    (cacheMiss opts bo inner t s).2.calls = s.calls + 1 := by
  rcases he : (inner s.calls).2 with _ | e <;>
    rcases hr : opts.Retry <;>
      simp [cacheMiss, he, hr]

/-- C1: the spec (and the code's own comment, the `Once` doc comment and
`TestOnce`) says a `ttl = 0, retry_on_error = false` cache resolves once and
serves that first pair forever; the code refutes this: after the first
resolution `nextResolve = now + 0` is not strictly after `now`, so the entry is
already expired, and the second `Resolve` call at the same injected time
re-invokes the wrapped resolver (`calls = 2`) and returns the second
invocation's pair `(1, err)` instead of the first call's `(0, err)`. -/
theorem once_config_reinvokes :
    (cacheRun onceCacheOpts zeroBackoff failInner [0, 0] (initCache ())).1
        = [(0, some ()), (1, some ())]
      ∧ (cacheRun onceCacheOpts zeroBackoff failInner [0, 0]
          (initCache ())).2.calls = 2 := by
  decide

/-- C2: the spec says a `ttl = 0, retry_on_error = true` cache retries while
failing (which the code does) and, after the first success, serves the cached
success value forever; the code refutes the second half: a successful
resolution sets `nextResolve = now + Expiry = now + 0`, which is not strictly
after `now`, so the call after the success (third call here, at the same
injected time) re-invokes the resolver (`calls = 3`) and returns its fresh pair
`(2, none)` instead of the cached `(1, none)` — contradicting the `Retry` doc
comment and `TestRetry`. -/
theorem retry_config_reinvokes_after_success :
    (cacheRun retryCacheOpts zeroBackoff failOnceInner [0, 0, 0]
          (initCache ())).1
        = [(0, some ()), (1, none), (2, none)]
      ∧ (cacheRun retryCacheOpts zeroBackoff failOnceInner [0, 0, 0]
          (initCache ())).2.calls = 3 := by
  decide

/-- C7: the spec says that once `NextBackOff` signals stop after a failed
resolution, the inner resolver is never invoked again; the code refutes this:
`BackOffStop = -1` is never compared against, so after a failed resolution at
time `10` the cache sets `nextResolve = 10 + (-1) = 9`, which is already in the
past, and the next call at time `10` re-invokes the resolver (`calls = 2`) —
contradicting the documented `BackOff` contract in `backoff.go`. -/
theorem backoff_stop_still_reinvokes :
    (cacheRun retryCacheOpts stopBackoff failInner [10, 10]
          (initCache ())).2.calls = 2
      ∧ (cacheRun retryCacheOpts stopBackoff failInner [10, 10]
          (initCache ())).2.nextResolve = 9 := by
  decide

/-- C4 counterexample: against a resolver that always fails with values
`10, 20, ...`, the `Graceful` wrapper's last-good slot is already populated
(with `10`) after the first failing call, and the second failing call returns
`(10, err)` — the value remembered from the first failure — not its own value
`20` as the claim states. -/
theorem graceful_remembers_failed_value :
    gracefulIter failGrow 1 = some 10
      ∧ gracefulOut failGrow 1 = (10, some ())
      ∧ gracefulOut failGrow 1 ≠ ((failGrow 1).1, (failGrow 1).2) := by
  decide

lemma gracefulResolve_snd_out (r : T × Option E) (lg : Option T) :
    (gracefulResolve r lg).1.2 = r.2 := by
  rcases hr : r.2 with _ | e <;> rcases lg with _ | g <;>
    simp [gracefulResolve, hr]

lemma gracefulIter_all_fail (inner : Nat → T × Option E) (k : Nat)
    (hfail : ∀ j, j ≤ k → (inner j).2 ≠ none) :
    gracefulIter inner (k + 1) = some (inner 0).1 := by
  induction k with
  | zero =>
    rcases h0 : (inner 0).2 with _ | e <;>
      simp [gracefulIter, gracefulResolve, h0]
  | succ k ih =>
    have hik : gracefulIter inner (k + 1) = some (inner 0).1 :=
      ih fun j hj => hfail j (Nat.le_succ_of_le hj)
    rcases he : (inner (k + 1)).2 with _ | e
    · exact absurd he (hfail (k + 1) le_rfl)
    · show (gracefulResolve (inner (k + 1)) (gracefulIter inner (k + 1))).2 = _
      rw [hik]
      simp [gracefulResolve, he]

/-- C4 amended: while the inner resolver has never succeeded, the first call of
`Graceful` returns its own `(value, error)` pair unchanged, but its value
populates the last-good slot immediately (even on failure); every subsequent
failing call therefore returns the first call's value paired with its own
current error, not that call's own value. -/
theorem graceful_before_first_success (inner : Nat → T × Option E) (k : Nat)
    (hfail : ∀ j, j ≤ k → (inner j).2 ≠ none) :
    gracefulOut inner 0 = inner 0
      ∧ gracefulIter inner (k + 1) = some (inner 0).1
      ∧ (0 < k → gracefulOut inner k = ((inner 0).1, (inner k).2)) := by
  refine ⟨?_, gracefulIter_all_fail inner k hfail, ?_⟩
  · rcases h0 : (inner 0).2 with _ | e <;>
      simp [gracefulOut, gracefulIter, gracefulResolve, h0]
  · intro hk
    obtain ⟨j, rfl⟩ := Nat.exists_eq_add_of_lt hk
    have hprev : gracefulIter inner (j + 1) = some (inner 0).1 :=
      gracefulIter_all_fail inner j fun i hi =>
        hfail i (le_trans hi (by omega))
    rcases he : (inner (j + 1)).2 with _ | e
    · exact absurd he (hfail (j + 1) (by omega))
    · simp only [Nat.zero_add] at hprev ⊢
      simp [gracefulOut, gracefulResolve, he, hprev]

/-- Witness for the amended C4 claim at a concrete input: a resolver that
always fails with values `1, 2, 3, ...`; the third call returns the first
call's value `1` with its own error. -/
theorem graceful_before_first_success_witness :
    gracefulOut failGrow 0 = failGrow 0
      ∧ gracefulIter failGrow 3 = some (failGrow 0).1
      ∧ (0 < 2 → gracefulOut failGrow 2 = ((failGrow 0).1, (failGrow 2).2)) :=
  graceful_before_first_success failGrow 2
    (by intro j hj; simp [failGrow])

lemma gracefulIter_latest (inner : Nat → T × Option E) (k : Nat) (g : T)
    (hs : latestSuccess inner k = some g) :
    gracefulIter inner k = some g := by
  induction k with
  | zero => simp [latestSuccess] at hs
  | succ k ih =>
    rcases he : (inner k).2 with _ | e
    · have : some (inner k).1 = some g := by
        simpa [latestSuccess, he] using hs
      simp [gracefulIter, gracefulResolve, he, this]
    · have hs' : latestSuccess inner k = some g := by
        simpa [latestSuccess, he] using hs
      simp [gracefulIter, gracefulResolve, he, ih hs']

/-- C6: whenever a call of `Graceful` fails and some earlier call succeeded,
the output is `(g, some e)` where `g` is the value of the most recent earlier
successful call and `e` is the current call's own error; moreover the error
slot of every call (failing or not, with or without a previous success) carries
the inner resolver's error through unchanged — only the value is ever
substituted. -/
theorem graceful_error_passthrough (inner : Nat → T × Option E) (k : Nat)
    (g : T) (e : E) (hf : (inner k).2 = some e)
    (hs : latestSuccess inner k = some g) :
    gracefulOut inner k = (g, some e)
      ∧ ∀ j, (gracefulOut inner j).2 = (inner j).2 := by
  constructor
  · simp [gracefulOut, gracefulResolve, hf, gracefulIter_latest inner k g hs]
  · intro j
    exact gracefulResolve_snd_out (inner j) (gracefulIter inner j)

/-- Witness for C6 at a concrete input: the resolver succeeds with `5` on its
first call and fails afterwards; the second call returns `(5, err)`. -/
theorem graceful_error_passthrough_witness :
    gracefulOut succThenFail 1 = (5, some ())
      ∧ (gracefulOut succThenFail 0).2 = (succThenFail 0).2 :=
  ⟨(graceful_error_passthrough succThenFail 1 5 () (by decide) (by decide)).1,
   (graceful_error_passthrough succThenFail 1 5 () (by decide) (by decide)).2 0⟩

/-- C3: for an Expiring Cache with `retry_on_error = false` and positive
`Expiry = D`, after a call at `t0` that does not serve from the cache (first
call ever, or expired), every call at `t1` strictly before `t0 + D` returns the
pair produced by that resolution verbatim — a stored error included — with the
whole cache state (hence also the resolver-invocation count) unchanged, and
every call at `t1 ≥ t0 + D` invokes the inner resolver again. -/
theorem ttl_cache_window (opts : CacheOpts) (bo : BackoffPolicy B)
    (inner : Nat → T × Option E) (t0 : Int) (s : CacheState T E B)
    (hD : 0 < opts.Expiry) (hR : opts.Retry = false)
    (hm : s.value = none ∨ ¬ t0 < s.nextResolve) (t1 : Int) :
    (t1 < t0 + opts.Expiry →
      cacheResolve opts bo inner t1 (cacheResolve opts bo inner t0 s).2
        = (inner s.calls, (cacheResolve opts bo inner t0 s).2))
    ∧ (t0 + opts.Expiry ≤ t1 →
      (cacheResolve opts bo inner t1
          (cacheResolve opts bo inner t0 s).2).2.calls
        = s.calls + 2) := by
  have hmiss : ∃ s0 : CacheState T E B, s0.calls = s.calls ∧
      cacheResolve opts bo inner t0 s = cacheMiss opts bo inner t0 s0 := by
    rcases hv : s.value with _ | v0
    · exact ⟨{ s with backoff := bo.reset s.backoff }, rfl,
        by simp [cacheResolve, hv]⟩
    · rcases hm with hm | hm
      · rw [hv] at hm; cases hm
      · exact ⟨s, rfl, by simp [cacheResolve, hv, hm]⟩
  obtain ⟨s0, hc0, heq⟩ := hmiss
  rw [heq]
  obtain ⟨hfst, hval, herr, hcalls, hnext⟩ :=
    cacheMiss_spec opts bo inner t0 s0 hR
  constructor
  · intro ht1
    have hht : t1 < (cacheMiss opts bo inner t0 s0).2.nextResolve := by
      rw [hnext]; exact ht1
    have hhit := cache_hit_eq opts bo inner t1 (cacheMiss opts bo inner t0 s0).2
      (inner s0.calls).1 hval hht
    rw [hhit, herr, hc0]
  · intro ht1
    have hnem : ¬ t1 < (cacheMiss opts bo inner t0 s0).2.nextResolve := by
      rw [hnext]; omega
    rcases hv1 : (cacheMiss opts bo inner t0 s0).2.value with _ | v1
    · rw [hval] at hv1; cases hv1
    · have hstep : cacheResolve opts bo inner t1 (cacheMiss opts bo inner t0 s0).2
          = cacheMiss opts bo inner t1 (cacheMiss opts bo inner t0 s0).2 := by
        simp [cacheResolve, hv1, hnem]
      rw [hstep, cacheMiss_calls, hcalls, hc0]

/-- Witness for C3 at a concrete input: TTL `2`, a succeeding counter resolver,
first resolution at time `0`; the call at time `1` replays the first pair with
the state untouched, the call at time `5` re-invokes the resolver. -/
theorem ttl_cache_window_witness :
    cacheResolve ttlOpts zeroBackoff countInner 1 ttlS1 = (countInner 0, ttlS1)
      ∧ (cacheResolve ttlOpts zeroBackoff countInner 5 ttlS1).2.calls = 0 + 2 :=
  ⟨(ttl_cache_window ttlOpts zeroBackoff countInner 0 (initCache ()) (by decide)
      rfl (Or.inl rfl) 1).1 (by decide),
   (ttl_cache_window ttlOpts zeroBackoff countInner 0 (initCache ()) (by decide)
      rfl (Or.inl rfl) 5).2 (by decide)⟩

/-- C9: when the Expiring Cache serves a cached result (a value is present and
the call time is strictly before `nextResolve`), the call returns the stored
pair and the state is returned exactly as it was — stored value, stored error,
`nextResolve`, backoff-policy state and resolver-invocation count all
unchanged, so in particular the inner resolver is not invoked. -/
theorem cache_hit_frame (opts : CacheOpts) (bo : BackoffPolicy B)
    (inner : Nat → T × Option E) (t : Int) (s : CacheState T E B) (v : T)
    (hv : s.value = some v) (ht : t < s.nextResolve) :
    cacheResolve opts bo inner t s = ((v, s.err), s) :=
  cache_hit_eq opts bo inner t s v hv ht

/-- Witness for C9 at a concrete input: a live entry `(7, none)` with
`nextResolve = 5`, served unchanged by a call at time `3`. -/
theorem cache_hit_frame_witness :
    cacheResolve ttlOpts zeroBackoff countInner 3 hitState
      = ((7, none), hitState) :=
  cache_hit_frame ttlOpts zeroBackoff countInner 3 hitState 7 rfl (by decide)

/-- C5: for every option record, the pipeline `New` builds coincides with the
composition the spec describes (`specPipeline`, written from the spec's words):
base, then `Graceful` iff `graceful`, then exactly one of Expiring Cache with
the given `ttl` and `retry_on_error = retry` (if `ttl > 0`), retry-forever
(else, if `retry`), resolve-once (else, if `once`), then the mutex guard
outermost iff `safe`; `safe` defaults to true, and with all three of
`ttl`/`retry`/`once` requested the TTL cache wins, with `retry` and `once`
requested retry-forever wins, as the concrete instances record. -/
theorem new_composition_order (o : Options) :
    NewPipe o = specPipeline o
      ∧ defaultOptions.safe = true
      ∧ NewPipe
            { once := true, retry := true, graceful := false,
              expiry := 5, safe := false }
          = Pipeline.cacheP 5 true Pipeline.base
      ∧ NewPipe
            { once := true, retry := true, graceful := false,
              expiry := 0, safe := false }
          = Pipeline.cacheP 0 true Pipeline.base
      ∧ NewPipe
            { once := true, retry := false, graceful := false,
              expiry := 0, safe := false }
          = Pipeline.cacheP 0 false Pipeline.base :=
  ⟨rfl, rfl, by decide, by decide, by decide⟩

/-- C8: run against the instrumented backoff policy, one `Resolve` call
appends to the backoff-operation trace: nothing on a cached hit; a `Reset`
before resolving exactly when this is the first call ever (no value stored
yet); a `Reset` after the resolution exactly when it succeeded; and after a
failed resolution never a `Reset` — only a `NextBackOff` query, and that only
when `Retry` is set.  So `Reset` happens exactly on the first-ever call and
after each successful resolution. -/
theorem cache_backoff_reset_discipline (opts : CacheOpts) (d : Nat → Int)
    (inner : Nat → T × Option E) (t : Int) (s : CacheState T E (List BOp)) :
    ((cacheResolve opts (traceBackoff d) inner t s).2).backoff
      = s.backoff ++
          (if s.value.isSome ∧ t < s.nextResolve then []
           else
             (if s.value.isNone then [BOp.reset] else [])
               ++ (if (inner s.calls).2.isNone then [BOp.reset]
                   else if opts.Retry then [BOp.nextBackOff] else [])) := by
  rcases hv : s.value with _ | v0
  · rcases he : (inner s.calls).2 with _ | e
    · simp [cacheResolve, cacheMiss, traceBackoff, hv, he]
    · rcases hr : opts.Retry <;>
        simp [cacheResolve, cacheMiss, traceBackoff, hv, he, hr]
  · by_cases ht : t < s.nextResolve
    · simp [cacheResolve, hv, ht]
    · rcases he : (inner s.calls).2 with _ | e
      · simp [cacheResolve, cacheMiss, traceBackoff, hv, ht, he]
      · rcases hr : opts.Retry <;>
          simp [cacheResolve, cacheMiss, traceBackoff, hv, ht, he, hr]

lemma baseCalls_pipeStep (inner : Nat → T × Option E) (t : Int) :
    ∀ p : Pipeline, p.cacheFree = true → ∀ s : p.PState T E,
      Pipeline.baseCalls T E p (pipeStep inner t p s).2
        = Pipeline.baseCalls T E p s + 1 := by
  intro p
  induction p with
  | base => intro _ s; rfl
  | graceful p ih =>
    intro h s
    have hp : p.cacheFree = true := by simpa [Pipeline.cacheFree] using h
    simpa [pipeStep, Pipeline.baseCalls] using ih hp s.2
  | cacheP ex rt p ih =>
    intro h s
    simp [Pipeline.cacheFree] at h
  | safe p ih =>
    intro h s
    have hp : p.cacheFree = true := by simpa [Pipeline.cacheFree] using h
    simpa [pipeStep, Pipeline.baseCalls] using ih hp s

lemma baseCalls_pipeRun (inner : Nat → T × Option E) (p : Pipeline)
    (h : p.cacheFree = true) :
    ∀ (ts : List Int) (s : p.PState T E),
      Pipeline.baseCalls T E p (pipeRun inner p ts s).2
        = Pipeline.baseCalls T E p s + ts.length := by
  intro ts
  induction ts with
  | nil => intro s; simp [pipeRun]
  | cons t ts ih =>
    intro s
    have h2 := ih (pipeStep inner t p s).2
    simp only [pipeRun]
    rw [h2, baseCalls_pipeStep inner t p h s]
    simp only [List.length_cons]
    omega

/-- C10: when `expiry ≤ 0` and neither `retry` nor `once` is requested, the
pipeline `New` builds contains no cache layer at all, and the base resolver is
invoked on every single call of any call sequence — no result is ever served
from a cache. -/
theorem builder_no_ttl_no_cache (o : Options)
    (h1 : o.expiry ≤ 0) (h2 : o.retry = false) (h3 : o.once = false)
    (inner : Nat → T × Option E) (ts : List Int)
    (s : (NewPipe o).PState T E) :
    (NewPipe o).cacheFree = true
      ∧ Pipeline.baseCalls T E (NewPipe o) (pipeRun inner (NewPipe o) ts s).2
          = Pipeline.baseCalls T E (NewPipe o) s + ts.length := by
  have hex : ¬ 0 < o.expiry := by omega
  have hcf : (NewPipe o).cacheFree = true := by
    unfold NewPipe
    rcases hg : o.graceful <;> rcases hs : o.safe <;>
      simp [hex, h2, h3, hg, hs, Pipeline.cacheFree]
  exact ⟨hcf, baseCalls_pipeRun inner (NewPipe o) hcf ts s⟩

/-- Witness for C10 at a concrete input: default options plus `WithGraceful`
(so `expiry = 0`, no retry, no once, mutex on), a succeeding counter resolver,
three calls: the base resolver is invoked three times. -/
theorem builder_no_ttl_no_cache_witness :
    (NewPipe (withGracefulOpt defaultOptions)).cacheFree = true
      ∧ Pipeline.baseCalls Nat Unit (NewPipe (withGracefulOpt defaultOptions))
          (pipeRun countInner (NewPipe (withGracefulOpt defaultOptions))
            [5, 6, 7]
            ((NewPipe (withGracefulOpt defaultOptions)).initState Nat Unit)).2
        = Pipeline.baseCalls Nat Unit (NewPipe (withGracefulOpt defaultOptions))
            ((NewPipe (withGracefulOpt defaultOptions)).initState Nat Unit)
          + [(5 : Int), 6, 7].length :=
  builder_no_ttl_no_cache (withGracefulOpt defaultOptions) (by decide) rfl rfl
    countInner [5, 6, 7]
    ((NewPipe (withGracefulOpt defaultOptions)).initState Nat Unit)

end Resolvable
